import Mathlib

/-!
Verification of core behaviors of the acp-remote repository, shallowly embedded
in Lean from the TypeScript sources under
`src/apps/desktop/src/main/` (orchestrator `acp-main-agent.ts`,
external-session aggregation `external-sessions/`) and the Claude Code
session provider. The session-state module (persistence plus
verified-active gating) is not present under `src/` — only an older
in-memory revision, its vitest suite and its caller are — so its
operations are modelled from the spec, as marked on each definition.
-/

namespace AcpRemote

/-! ## Memories and the context prefix (`formatMemoriesForContext`,
`constructACPContextPrefix` in `acp-main-agent.ts`) -/

/-- Importance tiers of an agent memory, as used by the
`importanceOrder` record in `formatMemoriesForContext`. -/
inductive MemoryImportance where
  | critical
  | high
  | medium
  | low
deriving DecidableEq, Repr

/-- The fields of `AgentMemory` consumed by `formatMemoriesForContext`. -/
structure AgentMemory where
  content : String
  importance : MemoryImportance
  createdAt : Nat
deriving DecidableEq, Repr

/-- The record `importanceOrder` from `acp-main-agent.ts` line 36:
critical 0, high 1, medium 2, low 3. -/
def importanceOrder : MemoryImportance → Nat
  | .critical => 0
  | .high => 1
  | .medium => 2
  | .low => 3

/-- The comparator of the sort at `acp-main-agent.ts` lines 37-41: ascending
`importanceOrder`, ties broken by `createdAt` descending. -/
def memoryBefore (a b : AgentMemory) : Prop :=
  importanceOrder a.importance < importanceOrder b.importance ∨
    (importanceOrder a.importance = importanceOrder b.importance ∧
      b.createdAt ≤ a.createdAt)

instance : DecidableRel memoryBefore := fun a b =>
  inferInstanceAs (Decidable (_ ∨ _))

instance : IsTotal AgentMemory memoryBefore :=
  ⟨fun a b => by
    unfold memoryBefore
    rcases Nat.lt_trichotomy (importanceOrder a.importance) (importanceOrder b.importance) with
      h | h | h
    · exact Or.inl (Or.inl h)
    · rcases Nat.le_total b.createdAt a.createdAt with h' | h'
      · exact Or.inl (Or.inr ⟨h, h'⟩)
      · exact Or.inr (Or.inr ⟨h.symm, h'⟩)
    · exact Or.inr (Or.inl h)⟩

instance : IsTrans AgentMemory memoryBefore :=
  ⟨fun a b c hab hbc => by
    unfold memoryBefore at *
    rcases hab with h1 | ⟨h1, h1'⟩ <;> rcases hbc with h2 | ⟨h2, h2'⟩
    · exact Or.inl (h1.trans h2)
    · exact Or.inl (h2 ▸ h1)
    · exact Or.inl (h1 ▸ h2)
    · exact Or.inr ⟨h1.trans h2, h2'.trans h1'⟩⟩

/-- The `[...memories].sort(...)` call of `formatMemoriesForContext`, the
comparator translated as `memoryBefore`. -/
def sortedMemories (memories : List AgentMemory) : List AgentMemory :=
  List.insertionSort memoryBefore memories

/-- The slice `sorted.slice(0, maxMemories)` of `formatMemoriesForContext`. -/
def selectedMemories (memories : List AgentMemory) (maxMemories : Nat) :
    List AgentMemory :=
  (sortedMemories memories).take maxMemories

/-- The regex replacement `content.replace([\r\n]+ -> single space)` of
`formatMemoriesForContext` line 48, character by character; the flag records
whether the previous character belonged to a newline run. -/
def collapseNewlinesAux : List Char → Bool → List Char
  | [], _ => []
  | c :: rest, prevNL =>
    if c = '\r' ∨ c = '\n' then
      (if prevNL then [] else [' ']) ++ collapseNewlinesAux rest true
    else
      c :: collapseNewlinesAux rest false

/-- A memory content flattened to one line, as in `formatMemoriesForContext`. -/
def flattenMemoryLine (s : String) : String :=
  String.mk (collapseNewlinesAux s.data false)

/-- The function `formatMemoriesForContext(memories, maxMemories)` from
`acp-main-agent.ts` lines 32-49. -/
def formatMemoriesForContext (memories : List AgentMemory) (maxMemories : Nat) :
    String :=
  if memories.isEmpty then ""
  else
    let selected := selectedMemories memories maxMemories
    if selected.isEmpty then ""
    else
      String.intercalate "\n"
        (selected.map fun mem => "- " ++ flattenMemoryLine mem.content)

/-- The two config fields gating memory injection in
`constructACPContextPrefix` line 84. -/
structure MemoriesConfig where
  memoriesEnabled : Option Bool
  dualModelInjectMemories : Bool
deriving DecidableEq, Repr

/-- The gate `config.memoriesEnabled !== false && config.dualModelInjectMemories`. -/
def injectMemoriesGate (cfg : MemoriesConfig) : Bool :=
  (cfg.memoriesEnabled != some false) && cfg.dualModelInjectMemories

/-- Heading text of the memories section of the context prefix
(`constructACPContextPrefix` lines 92-95). -/
def memoriesSectionHeader : String :=
  "# Memories from Previous Sessions\nThese are important insights and learnings saved from previous interactions. Use them to inform your decisions.\n\n"

/-- The memories section that `constructACPContextPrefix` pushes (lines
84-100): present only when the gate is enabled and the formatted list is
non-empty. Failures of the memory service merely omit the section; the
successful fetch is the `memories` argument. -/
def memoriesSection (cfg : MemoriesConfig) (memories : List AgentMemory) :
    Option String :=
  if injectMemoriesGate cfg then
    let formatted := formatMemoriesForContext memories 15
    if formatted = "" then none
    else some (memoriesSectionHeader ++ formatted)
  else none

/-! ## Session Store (spec-modelled)

The persistence-enabled `acp-session-state.ts` (versioned persisted file,
verified-active gating, context-injection flags) is code of this repository
that is not under `src/`: only an older in-memory revision, its vitest suite
(`part_005`) and its caller (`acp-main-agent.ts`) are present. The store is
therefore modelled from spec section 4.1 and the data model of section 3.
Maps are embedded as functions from keys; persistence to disk is the store
state itself (spec: the in-memory state is authoritative, writes are
best-effort). -/

/-- An `AgentSessionRecord`: one per conversation with an agent binding. -/
structure ACPSessionInfo where
  sessionId : String
  agentName : String
  createdAt : Nat
  lastUsedAt : Nat
  cwd : Option String
  contextInjected : Bool
deriving DecidableEq, Repr

/-- Modelled from the spec: the state of the Session Store.  `sessions` is
the conversation-to-record map (records present in the persisted file),
`verified` is the `VerifiedActiveSet`, and `acpToUi` is the
agent-session-to-UI-session cross reference. -/
structure SessionStore where
  sessions : String → Option ACPSessionInfo
  verified : String → Bool
  acpToUi : String → Option String

/-- Modelled from the spec: the store as loaded from disk at startup —
records from the persisted file are present but none is verified. -/
def loadStoreFromDisk (persisted : String → Option ACPSessionInfo) :
    SessionStore :=
  { sessions := persisted, verified := fun _ => false, acpToUi := fun _ => none }

/-- Modelled from the spec: `get(conversationId)` returns a record only if
the conversation is in the `VerifiedActiveSet`. -/
def getSessionForConversation (st : SessionStore) (conversationId : String) :
    Option ACPSessionInfo :=
  if st.verified conversationId then st.sessions conversationId else none

/-- The projection of a record handed to resume attempts. -/
structure PersistedSessionInfo where
  sessionId : String
  agentName : String
  cwd : Option String
deriving DecidableEq, Repr

/-- Modelled from the spec: `getPersisted(conversationId)`, the read-only
lookup independent of verification. -/
def getPersistedSessionInfo (st : SessionStore) (conversationId : String) :
    Option PersistedSessionInfo :=
  (st.sessions conversationId).map fun r =>
    { sessionId := r.sessionId, agentName := r.agentName, cwd := r.cwd }

/-- Modelled from the spec: `upsert` — creates or updates the record
(`createdAt` immutable, `contextInjected` never reverted), sets
`lastUsedAt = now`, and adds the conversation to the `VerifiedActiveSet`. -/
def setSessionForConversation (st : SessionStore)
    (conversationId sessionId agentName : String) (cwd : Option String)
    (now : Nat) : SessionStore :=
  let record : ACPSessionInfo :=
    match st.sessions conversationId with
    | some existing =>
      { existing with
        sessionId := sessionId
        agentName := agentName
        lastUsedAt := now
        cwd := cwd }
    | none =>
      { sessionId := sessionId
        agentName := agentName
        createdAt := now
        lastUsedAt := now
        cwd := cwd
        contextInjected := false }
  { st with
    sessions := fun x => if x == conversationId then some record else st.sessions x
    verified := fun x => if x == conversationId then true else st.verified x }

/-- Modelled from the spec: `clear(conversationId)` removes the record and
its verification flag. -/
def clearSessionForConversation (st : SessionStore) (conversationId : String) :
    SessionStore :=
  { st with
    sessions := fun x => if x == conversationId then none else st.sessions x
    verified := fun x => if x == conversationId then false else st.verified x }

/-- Modelled from the spec: `touch(conversationId)` updates `lastUsedAt`
without altering other fields. -/
def touchSession (st : SessionStore) (conversationId : String) (now : Nat) :
    SessionStore :=
  { st with
      sessions := fun x =>
        if x == conversationId then
          (st.sessions conversationId).map fun r => { r with lastUsedAt := now }
        else st.sessions x }

/-- Modelled from the spec: `markContextInjected(conversationId)` sets
`contextInjected = true` on the record. -/
def markContextInjected (st : SessionStore) (conversationId : String) :
    SessionStore :=
  { st with
      sessions := fun x =>
        if x == conversationId then
          (st.sessions conversationId).map fun r => { r with contextInjected := true }
        else st.sessions x }

/-- Modelled from the spec: `hasContextInjected(conversationId)`. -/
def hasContextBeenInjected (st : SessionStore) (conversationId : String) : Bool :=
  match st.sessions conversationId with
  | some r => r.contextInjected
  | none => false

/-- The operation `setAcpToSpeakMcpSessionMapping` — the agent-session to UI-session
cross reference used to route approval requests. -/
def setAcpToSpeakMcpSessionMapping (st : SessionStore)
    (acpSessionId speakMcpSessionId : String) : SessionStore :=
  { st with
      acpToUi := fun x =>
        if x == acpSessionId then some speakMcpSessionId else st.acpToUi x }

/-! ## The orchestrator (`processTranscriptWithACPAgent`, `acp-main-agent.ts`
lines 192-717)

The Agent Session Client (`acpService`) is the external collaborator: its
request/response calls are oracle functions, so a run of the orchestrator is
a pure function of the client, the configuration and the store state. The
value `constructACPContextPrefix` would produce is the `contextPrefixText`
input, used opaquely by the orchestrator.  JavaScript `x || y` on strings
treats the empty string as falsy; `jsStringOr` reproduces that. -/

/-- Result of `acpService.loadSession`. -/
structure LoadSessionResult where
  success : Bool
  sessionId : Option String
  error : Option String
deriving DecidableEq, Repr

/-- Result of `acpService.sendPrompt`. -/
structure SendPromptResult where
  success : Bool
  response : Option String
  stopReason : Option String
  error : Option String
deriving DecidableEq, Repr

/-- The Agent Session Client capability: `loadSession(agentName, sessionId,
cwd)`, `getOrCreateSession(agentName)`, `sendPrompt(agentName, sessionId,
prompt)`. -/
structure AgentClient where
  loadSession : String → String → String → LoadSessionResult
  getOrCreateSession : String → Option String
  sendPrompt : String → String → String → SendPromptResult

/-- JavaScript `a || b` for an optional string `a`: the empty string is
falsy. -/
def jsStringOr (a : Option String) (b : String) : String :=
  match a with
  | some s => if s == "" then b else s
  | none => b

/-- The ambient inputs of one orchestration run: the client, the context
prefix `constructACPContextPrefix` yields, the agent profile working
directory, `process.cwd()`, the UI session id and the clock. -/
structure OrchestratorEnv where
  client : AgentClient
  contextPrefixText : String
  profileCwd : Option String
  processCwd : String
  uiSessionId : String
  now : Nat

/-- The observable outcome of one orchestration run: the store afterwards,
the structured result fields, and the exact text passed to `sendPrompt`
(none when the run failed before sending). -/
structure RunResult where
  store : SessionStore
  success : Bool
  acpSessionId : Option String
  promptSent : Option String
  sessionLoaded : Bool
  error : Option String

/-- Resolution step 3 (`acp-main-agent.ts` lines 310-350): try to resume a
persisted-but-unverified record for the same agent via `loadSession`; on
success adopt the returned id and upsert, on failure clear the stale
record. Returns the store, the session id if resolved, and the
`sessionLoaded` flag. -/
def tryLoadPersisted (env : OrchestratorEnv) (agentName conversationId : String)
    (st0 : SessionStore) : SessionStore × Option String × Bool :=
  match getPersistedSessionInfo st0 conversationId with
  | some persistedSession =>
    if persistedSession.agentName == agentName then
      let cwd := jsStringOr persistedSession.cwd
        (jsStringOr env.profileCwd env.processCwd)
      let loadResult := env.client.loadSession agentName persistedSession.sessionId cwd
      match loadResult.sessionId with
      | some loadedId =>
        if loadResult.success && loadedId != "" then
          (setSessionForConversation st0 conversationId loadedId agentName
            (some cwd) env.now, some loadedId, true)
        else
          (clearSessionForConversation st0 conversationId, none, false)
      | none =>
        (clearSessionForConversation st0 conversationId, none, false)
    else (st0, none, false)
  | none => (st0, none, false)

/-- Session resolution (`acp-main-agent.ts` lines 301-350): reuse a verified
in-memory session for the same agent, else attempt the persisted-session
resume unless `forceNewSession`. -/
def resolveSession (env : OrchestratorEnv) (agentName conversationId : String)
    (forceNewSession : Bool) (st0 : SessionStore) :
    SessionStore × Option String × Bool :=
  let existingSession :=
    if forceNewSession then none else getSessionForConversation st0 conversationId
  match existingSession with
  | some info =>
    if info.agentName == agentName then
      (touchSession st0 conversationId env.now, some info.sessionId, false)
    else tryLoadPersisted env agentName conversationId st0
  | none =>
    if forceNewSession then (st0, none, false)
    else tryLoadPersisted env agentName conversationId st0

/-- The tail of a successful resolution (`acp-main-agent.ts` lines 365-688):
register the session cross reference, mark context as injected for a
loaded session, inject the one-shot context prefix when not yet injected
(marking it injected unconditionally), and send the prompt. -/
def finishRun (env : OrchestratorEnv) (transcript agentName conversationId : String)
    (st : SessionStore) (acpSessionId : String) (sessionLoaded : Bool) :
    RunResult :=
  let st2 := setAcpToSpeakMcpSessionMapping st acpSessionId env.uiSessionId
  let st3 :=
    if sessionLoaded && !(hasContextBeenInjected st2 conversationId) then
      markContextInjected st2 conversationId
    else st2
  let shouldInjectContext := !(hasContextBeenInjected st3 conversationId)
  let promptToSend :=
    if shouldInjectContext && (env.contextPrefixText != "") then
      env.contextPrefixText ++ transcript
    else transcript
  let st4 :=
    if shouldInjectContext then markContextInjected st3 conversationId else st3
  let result := env.client.sendPrompt agentName acpSessionId promptToSend
  { store := st4
    success := result.success
    acpSessionId := some acpSessionId
    promptSent := some promptToSend
    sessionLoaded := sessionLoaded
    error := result.error }

/-- The orchestrator `processTranscriptWithACPAgent(transcript, options)` — session
resolution, fallback creation of a new session (`acp-main-agent.ts` lines
352-363; a falsy id from `getOrCreateSession` throws, caught by the top
level catch as a failed result), then `finishRun`. -/
def processTranscriptWithACPAgent (env : OrchestratorEnv)
    (transcript agentName conversationId : String) (forceNewSession : Bool)
    (st0 : SessionStore) : RunResult :=
  match resolveSession env agentName conversationId forceNewSession st0 with
  | (st1, some acpSessionId, sessionLoaded) =>
    finishRun env transcript agentName conversationId st1 acpSessionId sessionLoaded
  | (st1, none, sessionLoaded) =>
    match env.client.getOrCreateSession agentName with
    | some newId =>
      if newId == "" then
        { store := st1
          success := false
          acpSessionId := none
          promptSent := none
          sessionLoaded := sessionLoaded
          error := some ("Failed to create session with agent " ++ agentName) }
      else
        let cwd := jsStringOr env.profileCwd env.processCwd
        let st2 := setSessionForConversation st1 conversationId newId agentName
          (some cwd) env.now
        finishRun env transcript agentName conversationId st2 newId sessionLoaded
    | none =>
      { store := st1
        success := false
        acpSessionId := none
        promptSent := none
        sessionLoaded := sessionLoaded
        error := some ("Failed to create session with agent " ++ agentName) }

/-! ## The streaming progress handler (`progressHandler`,
`acp-main-agent.ts` lines 376-497)

Per `sessionUpdate` notification the handler appends the text of each text
content block to the run-scoped `accumulatedText` buffer and emits one
snapshot whose `streamingContent.text` is the entire accumulated buffer. -/

/-- An ACP content block as consumed by `progressHandler` (`block.type` is
`"text"` or `"tool_use"`; text block processing requires `block.text`
truthy, i.e. non-empty). -/
inductive ACPContentBlock where
  | text (text : String)
  | toolUse (name : String)
deriving DecidableEq, Repr

/-- A `sessionUpdate` event as seen by `progressHandler`. -/
structure SessionUpdateEvent where
  sessionId : String
  content : List ACPContentBlock
  isComplete : Bool
deriving DecidableEq, Repr

/-- The `streamingContent` field of an emitted progress snapshot. -/
structure StreamSnapshot where
  text : String
  isStreaming : Bool
deriving DecidableEq, Repr

/-- The per-block loop of `progressHandler` (lines 399-451) restricted to
its effect on `accumulatedText`: a text block with non-empty text appends,
any other block leaves the buffer unchanged. -/
def accumulateBlocks (acc : String) : List ACPContentBlock → String
  | [] => acc
  | ACPContentBlock.text t :: rest =>
    accumulateBlocks (if t != "" then acc ++ t else acc) rest
  | ACPContentBlock.toolUse _ :: rest => accumulateBlocks acc rest

/-- One invocation of `progressHandler`: events for another session are
ignored (no emission); otherwise the buffer is advanced and a snapshot
carrying the whole buffer is emitted with `isStreaming = !event.isComplete`
(lines 474-490). -/
def progressHandlerStep (acpSessionId : String) (acc : String)
    (event : SessionUpdateEvent) : String × Option StreamSnapshot :=
  if event.sessionId == acpSessionId then
    let acc1 := accumulateBlocks acc event.content
    (acc1, some { text := acc1, isStreaming := !event.isComplete })
  else (acc, none)

/-- Folding `progressHandler` over a list of events: final buffer and the
emitted snapshots in order. -/
def runProgressHandler (acpSessionId : String) (acc : String) :
    List SessionUpdateEvent → String × List StreamSnapshot
  | [] => (acc, [])
  | event :: rest =>
    let step := progressHandlerStep acpSessionId acc event
    let tail := runProgressHandler acpSessionId step.1 rest
    (tail.1, step.2.toList ++ tail.2)

/-! ## The tool-call tracker (`toolCallUpdateHandler`,
`acp-main-agent.ts` lines 501-597)

`activeToolCalls` is a JavaScript `Map` keyed by `toolCallId`; it is
embedded as an insertion-ordered association list because each emitted
snapshot renders the whole map. -/

/-- The agent-native tool-call status vocabulary handled at lines
554-558. -/
inductive ACPToolCallStatus where
  | pending
  | in_progress
  | running
  | completed
  | failed
deriving DecidableEq, Repr

/-- A location attached to a tool call. -/
structure ToolLocation where
  path : String
  line : Option Nat
deriving DecidableEq, Repr

/-- The `toolCall` payload of a `toolCallUpdate` event. -/
structure ACPToolCallUpdate where
  toolCallId : String
  title : String
  kind : Option String
  status : Option ACPToolCallStatus
  locations : Option (List ToolLocation)
deriving DecidableEq, Repr

/-- One tracked entry of `activeToolCalls` (lines 502-509, 527-534). -/
structure ToolCallState where
  toolCallId : String
  title : String
  kind : Option String
  status : ACPToolCallStatus
  startTime : Nat
  locations : Option (List ToolLocation)
deriving DecidableEq, Repr

/-- A `toolCallUpdate` event as seen by the handler. -/
structure ToolCallUpdateEvent where
  sessionId : String
  toolCall : ACPToolCallUpdate
deriving DecidableEq, Repr

/-- The normalized progress-step status (line 554: default
`"in_progress"`). -/
inductive StepStatus where
  | pending
  | in_progress
  | completed
  | error
deriving DecidableEq, Repr

/-- The status mapping of lines 554-558. -/
def mapStepStatus : ACPToolCallStatus → StepStatus
  | .pending => .pending
  | .in_progress => .in_progress
  | .running => .in_progress
  | .completed => .completed
  | .failed => .error

/-- A rank under which `pending < in_progress < completed` and `error` is
terminal, used to state that a status never regresses. -/
def statusRank : StepStatus → Nat
  | .pending => 0
  | .in_progress => 1
  | .completed => 2
  | .error => 3

/-- Lookup (`Map.get`) on the association list. -/
def toolMapGet (m : List (String × ToolCallState)) (k : String) :
    Option ToolCallState :=
  (m.find? fun p => p.1 == k).map Prod.snd

/-- Update (`Map.set`): updates in place when the key exists (JavaScript `Map`
preserves insertion order), appends otherwise. -/
def toolMapSet (m : List (String × ToolCallState)) (k : String)
    (v : ToolCallState) : List (String × ToolCallState) :=
  if m.any fun p => p.1 == k then
    m.map fun p => if p.1 == k then (k, v) else p
  else m ++ [(k, v)]

/-- One invocation of `toolCallUpdateHandler` at clock value `now`: events
for another session are ignored; otherwise the call is upserted by
`toolCallId` — `startTime: existing?.startTime || Date.now()` keeps the
original start time when it is truthy — and the full current set of
tracked calls is emitted as the snapshot (lines 520-596; the emission is
guarded by `toolSteps.length > 0`). -/
def toolCallHandlerStep (acpSessionId : String)
    (active : List (String × ToolCallState)) (event : ToolCallUpdateEvent)
    (now : Nat) :
    List (String × ToolCallState) × Option (List ToolCallState) :=
  if event.sessionId == acpSessionId then
    let tc := event.toolCall
    let existing := toolMapGet active tc.toolCallId
    let entry : ToolCallState :=
      { toolCallId := tc.toolCallId
        title := tc.title
        kind := tc.kind
        status := tc.status.getD .pending
        startTime :=
          match existing with
          | some prev => if prev.startTime != 0 then prev.startTime else now
          | none => now
        locations := tc.locations }
    let active1 := toolMapSet active tc.toolCallId entry
    let snapshot := active1.map Prod.snd
    (active1, if snapshot.isEmpty then none else some snapshot)
  else (active, none)

/-- Folding `toolCallUpdateHandler` over a list of timestamped events:
final tracked map and the emitted snapshots in order. -/
def runToolCallHandler (acpSessionId : String)
    (active : List (String × ToolCallState)) :
    List (ToolCallUpdateEvent × Nat) →
      List (String × ToolCallState) × List (List ToolCallState)
  | [] => (active, [])
  | (event, now) :: rest =>
    let step := toolCallHandlerStep acpSessionId active event now
    let tail := runToolCallHandler acpSessionId step.1 rest
    (tail.1, step.2.toList ++ tail.2)

/-! ## External session aggregation (`external-session-service.ts`)

Each provider call `provider.getSessionMetadata(limit)` either yields a
list or throws; the service catches a throw and substitutes the empty list
(lines 55-64).  A provider outcome is embedded as `Except`. -/

/-- Session sources (`ExternalSessionSource` plus the native tag). -/
inductive SessionSource where
  | augment
  | claudeCode
  | acpRemote
deriving DecidableEq, Repr

/-- The shape `ExternalSessionMetadata` from `external-sessions/types`. -/
structure ExternalSessionMetadata where
  id : String
  title : String
  createdAt : Nat
  updatedAt : Nat
  source : SessionSource
  workspacePath : Option String
  messageCount : Option Nat
  preview : Option String
  filePath : String
deriving DecidableEq, Repr

/-- A native conversation summary as supplied to
`getUnifiedConversationHistory`. -/
structure NativeConversationMetadata where
  id : String
  title : String
  createdAt : Nat
  updatedAt : Nat
  messageCount : Nat
  lastMessage : String
  preview : String
deriving DecidableEq, Repr

/-- The shape `UnifiedConversationHistoryItem`. -/
structure UnifiedConversationHistoryItem where
  id : String
  title : String
  createdAt : Nat
  updatedAt : Nat
  messageCount : Nat
  lastMessage : String
  preview : String
  source : SessionSource
  workspacePath : Option String
  filePath : Option String
deriving DecidableEq, Repr

/-- The comparator `(a, b) => b.updatedAt - a.updatedAt` on metadata. -/
def metaUpdatedDesc (a b : ExternalSessionMetadata) : Prop :=
  b.updatedAt ≤ a.updatedAt

instance : DecidableRel metaUpdatedDesc := fun a b =>
  inferInstanceAs (Decidable (b.updatedAt ≤ a.updatedAt))

instance : IsTotal ExternalSessionMetadata metaUpdatedDesc :=
  ⟨fun a b => Nat.le_total b.updatedAt a.updatedAt⟩

instance : IsTrans ExternalSessionMetadata metaUpdatedDesc :=
  ⟨fun _ _ _ hab hbc => Nat.le_trans hbc hab⟩

/-- The comparator `(a, b) => b.updatedAt - a.updatedAt` on unified
items. -/
def unifiedUpdatedDesc (a b : UnifiedConversationHistoryItem) : Prop :=
  b.updatedAt ≤ a.updatedAt

instance : DecidableRel unifiedUpdatedDesc := fun a b =>
  inferInstanceAs (Decidable (b.updatedAt ≤ a.updatedAt))

instance : IsTotal UnifiedConversationHistoryItem unifiedUpdatedDesc :=
  ⟨fun a b => Nat.le_total b.updatedAt a.updatedAt⟩

instance : IsTrans UnifiedConversationHistoryItem unifiedUpdatedDesc :=
  ⟨fun _ _ _ hab hbc => Nat.le_trans hbc hab⟩

/-- The `try/catch` around each provider fetch (lines 56-63): a throwing
provider contributes the empty list. -/
def providerFetch (r : Except String (List ExternalSessionMetadata)) :
    List ExternalSessionMetadata :=
  match r with
  | Except.ok l => l
  | Except.error _ => []

/-- The service call `getExternalSessionMetadata(limit)` (lines 51-69): fetch from every
available provider, flatten, sort by `updatedAt` descending, truncate. -/
def getExternalSessionMetadata
    (providerResults : List (Except String (List ExternalSessionMetadata)))
    (limit : Nat) : List ExternalSessionMetadata :=
  let allSessions := (providerResults.map providerFetch).flatten
  (List.insertionSort metaUpdatedDesc allSessions).take limit

/-- The unified shape of a native conversation (lines 91-94). -/
def toUnifiedNative (c : NativeConversationMetadata) :
    UnifiedConversationHistoryItem :=
  { id := c.id
    title := c.title
    createdAt := c.createdAt
    updatedAt := c.updatedAt
    messageCount := c.messageCount
    lastMessage := c.lastMessage
    preview := c.preview
    source := SessionSource.acpRemote
    workspacePath := none
    filePath := none }

/-- The unified shape of an external session (lines 97-108). -/
def toUnifiedExternal (s : ExternalSessionMetadata) :
    UnifiedConversationHistoryItem :=
  { id := s.id
    title := s.title
    createdAt := s.createdAt
    updatedAt := s.updatedAt
    messageCount := s.messageCount.getD 0
    lastMessage := s.preview.getD ""
    preview := s.preview.getD ""
    source := s.source
    workspacePath := s.workspacePath
    filePath := some s.filePath }

/-- The service call `getUnifiedConversationHistory(nativeConversations, limit)`
(lines 75-113). -/
def getUnifiedConversationHistory
    (nativeConversations : List NativeConversationMetadata)
    (providerResults : List (Except String (List ExternalSessionMetadata)))
    (limit : Nat) : List UnifiedConversationHistoryItem :=
  let externalSessions := getExternalSessionMetadata providerResults limit
  let unifiedNative := nativeConversations.map toUnifiedNative
  let unifiedExternal := externalSessions.map toUnifiedExternal
  (List.insertionSort unifiedUpdatedDesc (unifiedNative ++ unifiedExternal)).take
    limit

/-! ## The Claude Code session provider (`ClaudeCodeSessionProvider`,
`part_006`)

`loadSession(sessionId)` consults only the in-memory `metadataCache` for a
file path — an uncached id is never read from disk.  Reading a `.jsonl`
file, splitting it into trimmed non-empty lines and `JSON.parse`-ing each
line is the file-system oracle `fsRead`; a malformed line is `none` in its
output (the source skips it), and a read failure is `none` overall. -/

/-- The `type` tag of a Claude Code JSONL line. -/
inductive CCLineType where
  | user
  | assistant
  | system
  | queueOperation
deriving DecidableEq, Repr

/-- The `message.role` of a line. -/
inductive CCRole where
  | user
  | assistant
deriving DecidableEq, Repr

/-- A content block inside a structured message content array. -/
structure CCBlock where
  type : String
  text : Option String
deriving DecidableEq, Repr

/-- The `message.content` payload: a string or an array of blocks. -/
inductive CCContent where
  | str (s : String)
  | blocks (bs : List CCBlock)
deriving DecidableEq, Repr

/-- The fields of a parsed `ClaudeCodeLine` used by `loadSession`
(`new Date(timestamp).getTime()` is embedded as the numeric timestamp). -/
structure ClaudeCodeLine where
  type : CCLineType
  sessionId : String
  cwd : Option String
  timestamp : Nat
  message : Option (CCRole × CCContent)
deriving DecidableEq, Repr

/-- A message of the assembled `ExternalSession`. -/
structure CCSessionMessage where
  role : CCRole
  content : String
  timestamp : Nat
deriving DecidableEq, Repr

/-- JavaScript falsiness of an optional string (`undefined` or `""`). -/
def jsFalsy (o : Option String) : Bool :=
  match o with
  | some s => s == ""
  | none => true

/-- Text extraction of lines 240-242: a plain string content is taken as
is; an array content yields the text of its first block whose type is
text, defaulting to the empty string. -/
def ccTextContent : CCContent → String
  | CCContent.str s => s
  | CCContent.blocks bs =>
    match bs.find? fun b => b.type == "text" with
    | some b => b.text.getD ""
    | none => ""

/-- The line loop of `loadSession` (lines 233-251): remember the first
truthy `cwd`, and push a message for every `user`/`assistant` line that has
one; malformed lines (`none`) are skipped. -/
def ccLoop : List (Option ClaudeCodeLine) → Option String →
    List CCSessionMessage → Option String × List CCSessionMessage
  | [], cwd, msgs => (cwd, msgs)
  | none :: rest, cwd, msgs => ccLoop rest cwd msgs
  | some line :: rest, cwd, msgs =>
    let cwd1 := if jsFalsy cwd && !(jsFalsy line.cwd) then line.cwd else cwd
    let push :=
      match line.message with
      | some (role, content) =>
        if line.type == CCLineType.user || line.type == CCLineType.assistant then
          [{ role := role, content := ccTextContent content,
             timestamp := line.timestamp }]
        else []
      | none => []
    ccLoop rest cwd1 (msgs ++ push)

/-- The assembled full session: `{...cached, messages, workspacePath:
cwd || cached.workspacePath}` (lines 253-257). -/
structure CCExternalSession where
  meta : ExternalSessionMetadata
  messages : List CCSessionMessage
  workspacePath : Option String
deriving DecidableEq, Repr

/-- Build the returned session from the cached metadata and the parsed
lines. -/
def ccAssembleSession (cached : ExternalSessionMetadata)
    (lines : List (Option ClaudeCodeLine)) : CCExternalSession :=
  let collected := ccLoop lines none []
  { meta := cached
    messages := collected.2
    workspacePath := if jsFalsy collected.1 then cached.workspacePath else collected.1 }

/-- The provider method `ClaudeCodeSessionProvider.loadSession(sessionId)` (`part_006` lines
218-262): the metadata cache decides everything — `if (!cached?.filePath)
return null` — and only a cached file path is ever read. -/
def ccLoadSession (metadataCache : List (String × ExternalSessionMetadata))
    (fsRead : String → Option (List (Option ClaudeCodeLine)))
    (sessionId : String) : Option CCExternalSession :=
  match (metadataCache.find? fun p => p.1 == sessionId).map Prod.snd with
  | none => none
  | some cached =>
    if cached.filePath == "" then none
    else
      match fsRead cached.filePath with
      | none => none
      | some lines => some (ccAssembleSession cached lines)

/-! ## Helper lemmas -/

/-- Characters produced by the newline-collapsing replacement are never CR
or LF. -/
theorem mem_collapseNewlinesAux (l : List Char) (b : Bool) :
    ∀ c ∈ collapseNewlinesAux l b, c ≠ '\n' ∧ c ≠ '\r' := by
  induction l generalizing b with
  | nil => intro c hc; simp [collapseNewlinesAux] at hc
  | cons c0 rest ih =>
    intro c hc
    unfold collapseNewlinesAux at hc
    by_cases hnl : c0 = '\r' ∨ c0 = '\n'
    · rw [if_pos hnl] at hc
      rcases List.mem_append.mp hc with h | h
      · cases b with
        | true => simp at h
        | false =>
          simp at h
          subst h
          exact ⟨by decide, by decide⟩
      · exact ih true c h
    · rw [if_neg hnl] at hc
      rcases List.mem_cons.mp hc with h | h
      · subst h
        push_neg at hnl
        exact ⟨hnl.2, hnl.1⟩
      · exact ih false c h

/-! ## Claim theorems -/

/-- C2: the Session Store get operation returns a record only for a
conversation in the verified-active set; an unverified conversation — in
particular any record merely loaded from the persisted file at startup —
yields none even when a persisted record exists. -/
theorem c2_get_requires_verified (st : SessionStore) (conversationId : String) :
    ((getSessionForConversation st conversationId).isSome →
      st.verified conversationId = true) ∧
    (st.verified conversationId = false →
      getSessionForConversation st conversationId = none) ∧
    (∀ persisted : String → Option ACPSessionInfo, ∀ c : String,
      getSessionForConversation (loadStoreFromDisk persisted) c = none) := by
  refine ⟨?_, ?_, ?_⟩
  · intro h
    by_cases hv : st.verified conversationId
    · exact hv
    · simp [getSessionForConversation, hv] at h
  · intro hv
    simp [getSessionForConversation, hv]
  · intro persisted c
    simp [getSessionForConversation, loadStoreFromDisk]

/-- Witness for C2 at a concrete store freshly loaded from disk: the
persisted record exists but get returns none. -/
theorem c2_witness :
    (loadStoreFromDisk fun _ =>
        some ⟨"s1", "agentA", 0, 0, none, false⟩).verified "c1" = false ∧
    getSessionForConversation
      (loadStoreFromDisk fun _ => some ⟨"s1", "agentA", 0, 0, none, false⟩)
      "c1" = none :=
  ⟨rfl,
    (c2_get_requires_verified
      (loadStoreFromDisk fun _ => some ⟨"s1", "agentA", 0, 0, none, false⟩)
      "c1").2.1 rfl⟩

/-- C10: the Claude Code provider loads a session only through its
in-memory metadata cache — an uncached session id yields none no matter
what is on disk, while a cached id is read from the cached file path. -/
theorem c10_load_requires_cache
    (metadataCache : List (String × ExternalSessionMetadata))
    (fsRead : String → Option (List (Option ClaudeCodeLine)))
    (sessionId : String) :
    ((metadataCache.find? fun p => p.1 == sessionId) = none →
      ccLoadSession metadataCache fsRead sessionId = none) ∧
    (∀ key cached lines,
      (metadataCache.find? fun p => p.1 == sessionId) = some (key, cached) →
      cached.filePath ≠ "" →
      fsRead cached.filePath = some lines →
      ccLoadSession metadataCache fsRead sessionId =
        some (ccAssembleSession cached lines)) := by
  constructor
  · intro h
    simp [ccLoadSession, h]
  · intro key cached lines hfind hfp hread
    simp [ccLoadSession, hfind, hfp, hread]

/-- Witness for C10: with an empty cache the session is not loaded even
though the file-system oracle would return a file for every path, and with
a cached id the session is assembled from the cached path. -/
theorem c10_witness :
    ccLoadSession [] (fun _ => some []) "sid" = none ∧
    ccLoadSession
      [("sid", ⟨"sid", "t", 0, 1, SessionSource.claudeCode, none, none, none, "/p/f.jsonl"⟩)]
      (fun _ => some []) "sid" =
      some (ccAssembleSession
        ⟨"sid", "t", 0, 1, SessionSource.claudeCode, none, none, none, "/p/f.jsonl"⟩ []) :=
  ⟨(c10_load_requires_cache [] (fun _ => some []) "sid").1 rfl,
    (c10_load_requires_cache
      [("sid", ⟨"sid", "t", 0, 1, SessionSource.claudeCode, none, none, none, "/p/f.jsonl"⟩)]
      (fun _ => some []) "sid").2 "sid"
      ⟨"sid", "t", 0, 1, SessionSource.claudeCode, none, none, none, "/p/f.jsonl"⟩
      [] (by decide) (by decide) rfl⟩

/-- C8: under the inject-memories gate the memories section of the context
prefix is built from at most 15 entries, ranked by importance tier then by
creation time descending, each flattened to a single line. -/
theorem c8_memories_ranked (cfg : MemoriesConfig) (memories : List AgentMemory)
    (hgate : injectMemoriesGate cfg = true) :
    memoriesSection cfg memories =
      (if formatMemoriesForContext memories 15 = "" then none
       else some (memoriesSectionHeader ++ formatMemoriesForContext memories 15)) ∧
    (memories ≠ [] →
      formatMemoriesForContext memories 15 =
        String.intercalate "\n"
          ((selectedMemories memories 15).map fun mem =>
            "- " ++ flattenMemoryLine mem.content)) ∧
    (selectedMemories memories 15).length ≤ 15 ∧
    List.Sorted memoryBefore (selectedMemories memories 15) ∧
    (∀ mem ∈ selectedMemories memories 15,
      ∀ c ∈ (flattenMemoryLine mem.content).data, c ≠ '\n' ∧ c ≠ '\r') := by
  refine ⟨?_, ?_, ?_, ?_, ?_⟩
  · simp [memoriesSection, hgate]
  · intro hne
    have hsel : (selectedMemories memories 15).isEmpty = false := by
      have hlen : (sortedMemories memories).length = memories.length :=
        List.length_insertionSort memoryBefore memories
      have : (selectedMemories memories 15).length = min 15 memories.length := by
        simp [selectedMemories, hlen]
      rw [List.isEmpty_eq_false_iff_exists_mem]
      rcases List.exists_mem_of_ne_nil memories hne with ⟨m, _⟩
      have hpos : 0 < (selectedMemories memories 15).length := by
        rw [this]
        have : 0 < memories.length := List.length_pos.mpr hne
        omega
      exact List.exists_mem_of_length_pos hpos
    have hme : memories.isEmpty = false := by
      simp [List.isEmpty_iff]
      exact hne
    simp [formatMemoriesForContext, hme, hsel]
  · calc (selectedMemories memories 15).length
        = min 15 (sortedMemories memories).length := by
          simp [selectedMemories]
      _ ≤ 15 := Nat.min_le_left _ _
  · exact List.Pairwise.sublist (List.take_sublist _ _)
      (List.sorted_insertionSort memoryBefore memories)
  · intro mem _ c hc
    exact mem_collapseNewlinesAux _ _ c hc

/-- Witness for C8 at a gate-enabled config and two concrete memories. -/
theorem c8_witness :
    injectMemoriesGate ⟨none, true⟩ = true ∧
    (memoriesSection ⟨none, true⟩
        [⟨"a\nb", MemoryImportance.low, 3⟩, ⟨"c", MemoryImportance.critical, 1⟩] =
      (if formatMemoriesForContext
            [⟨"a\nb", MemoryImportance.low, 3⟩, ⟨"c", MemoryImportance.critical, 1⟩] 15 = ""
       then none
       else some (memoriesSectionHeader ++ formatMemoriesForContext
            [⟨"a\nb", MemoryImportance.low, 3⟩, ⟨"c", MemoryImportance.critical, 1⟩] 15)) ∧
      ([(⟨"a\nb", MemoryImportance.low, 3⟩ : AgentMemory),
          ⟨"c", MemoryImportance.critical, 1⟩] ≠ [] →
        formatMemoriesForContext
            [⟨"a\nb", MemoryImportance.low, 3⟩, ⟨"c", MemoryImportance.critical, 1⟩] 15 =
          String.intercalate "\n"
            ((selectedMemories
                [⟨"a\nb", MemoryImportance.low, 3⟩, ⟨"c", MemoryImportance.critical, 1⟩]
                15).map fun mem => "- " ++ flattenMemoryLine mem.content)) ∧
      (selectedMemories
          [⟨"a\nb", MemoryImportance.low, 3⟩, ⟨"c", MemoryImportance.critical, 1⟩]
          15).length ≤ 15 ∧
      List.Sorted memoryBefore (selectedMemories
          [⟨"a\nb", MemoryImportance.low, 3⟩, ⟨"c", MemoryImportance.critical, 1⟩] 15) ∧
      (∀ mem ∈ selectedMemories
          [⟨"a\nb", MemoryImportance.low, 3⟩, ⟨"c", MemoryImportance.critical, 1⟩] 15,
        ∀ c ∈ (flattenMemoryLine mem.content).data, c ≠ '\n' ∧ c ≠ '\r')) :=
  ⟨by decide,
    c8_memories_ranked ⟨none, true⟩
      [⟨"a\nb", MemoryImportance.low, 3⟩, ⟨"c", MemoryImportance.critical, 1⟩]
      (by decide)⟩

/-- The expected snapshot texts of a streaming run: the running
concatenations of the received text blocks onto the initial buffer — the
spec words "the concatenation of all text blocks received so far". -/
def prefixConcats (acc : String) : List String → List String
  | [] => []
  | t :: rest => (acc ++ t) :: prefixConcats (acc ++ t) rest

/-- Every element of `prefixConcats acc texts` is at least as long as the
initial buffer. -/
theorem prefixConcats_le_length (acc : String) (texts : List String) :
    ∀ x ∈ prefixConcats acc texts, acc.length ≤ x.length := by
  induction texts generalizing acc with
  | nil => intro x hx; simp [prefixConcats] at hx
  | cons t rest ih =>
    intro x hx
    rcases List.mem_cons.mp hx with h | h
    · subst h
      simp
    · calc acc.length ≤ (acc ++ t).length := by simp
        _ ≤ x.length := ih (acc ++ t) x h

/-- The running concatenations are pairwise non-decreasing in length. -/
theorem prefixConcats_pairwise (acc : String) (texts : List String) :
    List.Pairwise (fun a b : String => a.length ≤ b.length)
      (prefixConcats acc texts) := by
  induction texts generalizing acc with
  | nil => exact List.Pairwise.nil
  | cons t rest ih =>
    refine List.Pairwise.cons ?_ (ih (acc ++ t))
    intro b hb
    exact prefixConcats_le_length (acc ++ t) rest b hb

/-- Running the progress handler over single-text-block events for the
handled session yields exactly the running concatenations as snapshot
texts. -/
theorem runProgressHandler_texts (sid : String) (acc : String)
    (texts : List String) :
    (runProgressHandler sid acc (texts.map fun t =>
        { sessionId := sid, content := [ACPContentBlock.text t],
          isComplete := false })).2.map StreamSnapshot.text =
      prefixConcats acc texts := by
  induction texts generalizing acc with
  | nil => rfl
  | cons t rest ih =>
    by_cases ht : t = ""
    · subst ht
      simp only [List.map_cons, runProgressHandler, progressHandlerStep,
        accumulateBlocks, prefixConcats]
      simp only [beq_self_eq_true, if_true, bne_self_eq_false, Bool.false_eq_true,
        if_false, ite_true]
      rw [show (acc ++ "") = acc from by simp]
      simp [ih acc]
    · simp only [List.map_cons, runProgressHandler, progressHandlerStep,
        accumulateBlocks, prefixConcats]
      have hbne : (t != "") = true := by simp [bne_iff_ne, ht]
      simp [hbne, ih (acc ++ t)]

/-- C5: within one orchestration run, a sequence of `sessionUpdate`
notifications each carrying a text content block produces snapshots whose
`streamingContent.text` is the concatenation of all text blocks received
so far, and no snapshot ever carries less text than an earlier one. -/
theorem c5_streaming_monotonic (sid : String) (texts : List String) :
    (runProgressHandler sid "" (texts.map fun t =>
        { sessionId := sid, content := [ACPContentBlock.text t],
          isComplete := false })).2.map StreamSnapshot.text =
      prefixConcats "" texts ∧
    List.Pairwise (fun a b => a.text.length ≤ b.text.length)
      (runProgressHandler sid "" (texts.map fun t =>
        { sessionId := sid, content := [ACPContentBlock.text t],
          isComplete := false })).2 := by
  refine ⟨runProgressHandler_texts sid "" texts, ?_⟩
  have h := prefixConcats_pairwise "" texts
  rw [← runProgressHandler_texts sid "" texts] at h
  rw [List.pairwise_map] at h
  exact h

/-- C7: the unified-history listing never throws — a provider failure
contributes zero items — and its result is sorted by `updatedAt`
descending, truncated to the caller-supplied limit, and consists only of
source-tagged native conversations and items of non-failing providers;
when everything fits inside the limit it is exactly the native
conversations plus the surviving providers' items. -/
theorem c7_aggregator_resilience
    (nativeConversations : List NativeConversationMetadata)
    (providerResults : List (Except String (List ExternalSessionMetadata)))
    (limit : Nat) :
    List.Sorted unifiedUpdatedDesc
      (getUnifiedConversationHistory nativeConversations providerResults limit) ∧
    (getUnifiedConversationHistory nativeConversations providerResults
      limit).length ≤ limit ∧
    (∀ item ∈ getUnifiedConversationHistory nativeConversations providerResults limit,
      (∃ c ∈ nativeConversations,
        item = toUnifiedNative c ∧ item.source = SessionSource.acpRemote) ∨
      (∃ l, Except.ok l ∈ providerResults ∧ ∃ m ∈ l,
        item = toUnifiedExternal m ∧ item.source = m.source)) ∧
    (((providerResults.map providerFetch).flatten).length ≤ limit →
      nativeConversations.length +
        ((providerResults.map providerFetch).flatten).length ≤ limit →
      (getUnifiedConversationHistory nativeConversations providerResults
        limit).Perm
        (nativeConversations.map toUnifiedNative ++
          ((providerResults.map providerFetch).flatten).map toUnifiedExternal)) := by
  refine ⟨?_, ?_, ?_, ?_⟩
  · exact List.Pairwise.sublist (List.take_sublist _ _)
      (List.sorted_insertionSort unifiedUpdatedDesc _)
  · calc (getUnifiedConversationHistory nativeConversations providerResults
          limit).length
        = min limit _ := List.length_take _ _
      _ ≤ limit := Nat.min_le_left _ _
  · intro item hitem
    have h1 : item ∈ List.insertionSort unifiedUpdatedDesc
        (nativeConversations.map toUnifiedNative ++
          (getExternalSessionMetadata providerResults limit).map toUnifiedExternal) :=
      (List.take_sublist _ _).subset hitem
    rw [List.mem_insertionSort] at h1
    rcases List.mem_append.mp h1 with h2 | h2
    · rcases List.mem_map.mp h2 with ⟨c, hc, hitem⟩
      exact Or.inl ⟨c, hc, hitem.symm, by rw [← hitem]; rfl⟩
    · rcases List.mem_map.mp h2 with ⟨m, hm, hitem⟩
      have h3 : m ∈ List.insertionSort metaUpdatedDesc
          ((providerResults.map providerFetch).flatten) :=
        (List.take_sublist _ _).subset hm
      rw [List.mem_insertionSort] at h3
      rcases List.mem_flatten.mp h3 with ⟨l', hl', hml'⟩
      rcases List.mem_map.mp hl' with ⟨r, hr, hfetch⟩
      refine Or.inr ?_
      cases r with
      | ok l => exact ⟨l, hr, m, by rw [← hfetch] at hml'; exact hml',
          hitem.symm, by rw [← hitem]; rfl⟩
      | error e =>
        rw [← hfetch] at hml'
        simp [providerFetch] at hml'
  · intro hext hall
    have hextEq : getExternalSessionMetadata providerResults limit =
        List.insertionSort metaUpdatedDesc
          ((providerResults.map providerFetch).flatten) := by
      unfold getExternalSessionMetadata
      apply List.take_of_length_le
      rw [List.length_insertionSort]
      exact hext
    have hlen : (List.insertionSort unifiedUpdatedDesc
        (nativeConversations.map toUnifiedNative ++
          (getExternalSessionMetadata providerResults limit).map
            toUnifiedExternal)).length ≤ limit := by
      rw [List.length_insertionSort, List.length_append, List.length_map,
        List.length_map, hextEq, List.length_insertionSort]
      exact hall
    unfold getUnifiedConversationHistory
    rw [List.take_of_length_le hlen]
    refine List.Perm.trans (List.perm_insertionSort _ _) ?_
    apply List.Perm.append_left
    rw [hextEq]
    exact (List.perm_insertionSort _ _).map toUnifiedExternal

/-- Witness for C7: a throwing provider beside a provider with two
sessions and one native conversation, listed with limit 10 — exactly the
two surviving items plus the native item, in one sorted list. -/
theorem c7_witness :
    (getUnifiedConversationHistory
      [⟨"n1", "native", 1, 5, 2, "m", "m"⟩]
      [Except.error "boom",
        Except.ok [⟨"e1", "t1", 1, 9, SessionSource.claudeCode, none, none, none, "/a"⟩,
          ⟨"e2", "t2", 1, 3, SessionSource.claudeCode, none, none, none, "/b"⟩]]
      10).Perm
      ([⟨"n1", "native", 1, 5, 2, "m", "m"⟩].map toUnifiedNative ++
        (([(Except.error "boom" : Except String (List ExternalSessionMetadata)),
          Except.ok [⟨"e1", "t1", 1, 9, SessionSource.claudeCode, none, none, none, "/a"⟩,
            ⟨"e2", "t2", 1, 3, SessionSource.claudeCode, none, none, none, "/b"⟩]].map
              providerFetch).flatten).map toUnifiedExternal) :=
  (c7_aggregator_resilience
    [⟨"n1", "native", 1, 5, 2, "m", "m"⟩]
    [Except.error "boom",
      Except.ok [⟨"e1", "t1", 1, 9, SessionSource.claudeCode, none, none, none, "/a"⟩,
        ⟨"e2", "t2", 1, 3, SessionSource.claudeCode, none, none, none, "/b"⟩]]
    10).2.2.2 (by decide) (by decide)

/-- C6: feeding three `toolCallUpdate` events for one `toolCallId` with
statuses pending, then in_progress, then completed emits three snapshots;
each snapshot carries the full tracked set, the status of the call never
regresses across snapshots, and its `startTime` stays the value recorded
at the first event. -/
theorem c6_toolcall_monotonic (sid id ti1 ti2 ti3 : String)
    (k1 k2 k3 : Option String) (l1 l2 l3 : Option (List ToolLocation))
    (t1 t2 t3 : Nat) (h1 : t1 ≠ 0) :
    (runToolCallHandler sid []
        [(⟨sid, ⟨id, ti1, k1, some ACPToolCallStatus.pending, l1⟩⟩, t1),
         (⟨sid, ⟨id, ti2, k2, some ACPToolCallStatus.in_progress, l2⟩⟩, t2),
         (⟨sid, ⟨id, ti3, k3, some ACPToolCallStatus.completed, l3⟩⟩, t3)]).2 =
      [[⟨id, ti1, k1, ACPToolCallStatus.pending, t1, l1⟩],
       [⟨id, ti2, k2, ACPToolCallStatus.in_progress, t1, l2⟩],
       [⟨id, ti3, k3, ACPToolCallStatus.completed, t1, l3⟩]] ∧
    (∀ s ∈ (runToolCallHandler sid []
        [(⟨sid, ⟨id, ti1, k1, some ACPToolCallStatus.pending, l1⟩⟩, t1),
         (⟨sid, ⟨id, ti2, k2, some ACPToolCallStatus.in_progress, l2⟩⟩, t2),
         (⟨sid, ⟨id, ti3, k3, some ACPToolCallStatus.completed, l3⟩⟩, t3)]).2,
      ∀ e ∈ s, e.toolCallId = id ∧ e.startTime = t1) ∧
    List.Pairwise
      (fun s s' => ∀ e ∈ s, ∀ e' ∈ s',
        statusRank (mapStepStatus e.status) ≤ statusRank (mapStepStatus e'.status))
      (runToolCallHandler sid []
        [(⟨sid, ⟨id, ti1, k1, some ACPToolCallStatus.pending, l1⟩⟩, t1),
         (⟨sid, ⟨id, ti2, k2, some ACPToolCallStatus.in_progress, l2⟩⟩, t2),
         (⟨sid, ⟨id, ti3, k3, some ACPToolCallStatus.completed, l3⟩⟩, t3)]).2 := by
  have h1' : (t1 != 0) = true := by simpa [bne_iff_ne] using h1
  have hsnaps : (runToolCallHandler sid []
        [(⟨sid, ⟨id, ti1, k1, some ACPToolCallStatus.pending, l1⟩⟩, t1),
         (⟨sid, ⟨id, ti2, k2, some ACPToolCallStatus.in_progress, l2⟩⟩, t2),
         (⟨sid, ⟨id, ti3, k3, some ACPToolCallStatus.completed, l3⟩⟩, t3)]).2 =
      [[⟨id, ti1, k1, ACPToolCallStatus.pending, t1, l1⟩],
       [⟨id, ti2, k2, ACPToolCallStatus.in_progress, t1, l2⟩],
       [⟨id, ti3, k3, ACPToolCallStatus.completed, t1, l3⟩]] := by
    simp [runToolCallHandler, toolCallHandlerStep, toolMapGet, toolMapSet, h1']
  refine ⟨hsnaps, ?_, ?_⟩
  · rw [hsnaps]
    intro s hs e he
    simp only [List.mem_cons, List.not_mem_nil, or_false] at hs
    rcases hs with hs | hs | hs <;> subst hs <;> simp_all
  · rw [hsnaps]
    simp [List.pairwise_cons, statusRank, mapStepStatus]

/-- Witness for C6 at a concrete tool call with start time 5. -/
theorem c6_witness :
    (5 : Nat) ≠ 0 ∧
    (runToolCallHandler "s" []
        [(⟨"s", ⟨"tc1", "Read", none, some ACPToolCallStatus.pending, none⟩⟩, 5),
         (⟨"s", ⟨"tc1", "Read", none, some ACPToolCallStatus.in_progress, none⟩⟩, 7),
         (⟨"s", ⟨"tc1", "Read", none, some ACPToolCallStatus.completed, none⟩⟩, 9)]).2 =
      [[⟨"tc1", "Read", none, ACPToolCallStatus.pending, 5, none⟩],
       [⟨"tc1", "Read", none, ACPToolCallStatus.in_progress, 5, none⟩],
       [⟨"tc1", "Read", none, ACPToolCallStatus.completed, 5, none⟩]] :=
  ⟨by decide,
    (c6_toolcall_monotonic "s" "tc1" "Read" "Read" "Read" none none none
      none none none 5 7 9 (by decide)).1⟩

/-! ### Orchestrator path lemmas -/

/-- A fresh conversation (no record, not verified) resolves to the
create-new-session path. -/
theorem resolveSession_fresh (env : OrchestratorEnv)
    (agentName conversationId : String) (st0 : SessionStore)
    (hv : st0.verified conversationId = false)
    (hs : st0.sessions conversationId = none) :
    resolveSession env agentName conversationId false st0 = (st0, none, false) := by
  simp [resolveSession, getSessionForConversation, hv, tryLoadPersisted,
    getPersistedSessionInfo, hs]

/-- An unverified conversation resolves through the persisted-record
path. -/
theorem resolveSession_unverified (env : OrchestratorEnv)
    (agentName conversationId : String) (st0 : SessionStore)
    (hv : st0.verified conversationId = false) :
    resolveSession env agentName conversationId false st0 =
      tryLoadPersisted env agentName conversationId st0 := by
  simp [resolveSession, getSessionForConversation, hv]

/-- A failing `loadSession` clears the stale record and yields no session
from the resume path. -/
theorem tryLoadPersisted_fail (env : OrchestratorEnv)
    (agentName conversationId : String) (st0 : SessionStore)
    (rec : ACPSessionInfo)
    (hs : st0.sessions conversationId = some rec)
    (hagent : rec.agentName = agentName)
    (hfail : (env.client.loadSession agentName rec.sessionId
      (jsStringOr rec.cwd (jsStringOr env.profileCwd env.processCwd))).success
        = false) :
    tryLoadPersisted env agentName conversationId st0 =
      (clearSessionForConversation st0 conversationId, none, false) := by
  have hbeq : (rec.agentName == agentName) = true := by simp [hagent]
  unfold tryLoadPersisted
  rw [getPersistedSessionInfo, hs]
  simp only [Option.map_some', hbeq, if_true]
  cases hls : (env.client.loadSession agentName rec.sessionId
      (jsStringOr rec.cwd (jsStringOr env.profileCwd env.processCwd))).sessionId with
  | none => simp [hls]
  | some lsid => simp [hls, hfail]

/-- A successful `loadSession` adopts the returned id, upserts the record
and reports `sessionLoaded`. -/
theorem tryLoadPersisted_success (env : OrchestratorEnv)
    (agentName conversationId lsid : String) (st0 : SessionStore)
    (rec : ACPSessionInfo)
    (hs : st0.sessions conversationId = some rec)
    (hagent : rec.agentName = agentName)
    (hlsid : (env.client.loadSession agentName rec.sessionId
      (jsStringOr rec.cwd (jsStringOr env.profileCwd env.processCwd))).sessionId
        = some lsid)
    (hsuc : (env.client.loadSession agentName rec.sessionId
      (jsStringOr rec.cwd (jsStringOr env.profileCwd env.processCwd))).success
        = true)
    (hne : lsid ≠ "") :
    tryLoadPersisted env agentName conversationId st0 =
      (setSessionForConversation st0 conversationId lsid agentName
        (some (jsStringOr rec.cwd (jsStringOr env.profileCwd env.processCwd)))
        env.now,
       some lsid, true) := by
  have hbeq : (rec.agentName == agentName) = true := by simp [hagent]
  unfold tryLoadPersisted
  rw [getPersistedSessionInfo, hs]
  simp only [Option.map_some', hbeq, if_true]
  simp [hlsid, hsuc, hne]

/-- Upserting verifies the conversation. -/
theorem verified_setSession (st : SessionStore)
    (conversationId sessionId agentName : String) (cwd : Option String)
    (now : Nat) :
    (setSessionForConversation st conversationId sessionId agentName cwd
      now).verified conversationId = true := by
  simp [setSessionForConversation]

/-- Upserting a fresh conversation creates the record with
`contextInjected = false`. -/
theorem sessions_setSession_fresh (st : SessionStore)
    (conversationId sessionId agentName : String) (cwd : Option String)
    (now : Nat) (hs : st.sessions conversationId = none) :
    (setSessionForConversation st conversationId sessionId agentName cwd
      now).sessions conversationId =
      some ⟨sessionId, agentName, now, now, cwd, false⟩ := by
  simp [setSessionForConversation, hs]

/-- Upserting an existing conversation rebinds the session while keeping
`createdAt` and `contextInjected`. -/
theorem sessions_setSession_existing (st : SessionStore)
    (conversationId sessionId agentName : String) (cwd : Option String)
    (now : Nat) (rec : ACPSessionInfo)
    (hs : st.sessions conversationId = some rec) :
    (setSessionForConversation st conversationId sessionId agentName cwd
      now).sessions conversationId =
      some { rec with
        sessionId := sessionId
        agentName := agentName
        lastUsedAt := now
        cwd := cwd } := by
  simp [setSessionForConversation, hs]

/-- Clearing removes the record. -/
theorem sessions_clear (st : SessionStore) (conversationId : String) :
    (clearSessionForConversation st conversationId).sessions conversationId
      = none := by
  simp [clearSessionForConversation]

/-- The tail of a run whose store holds a not-yet-injected record and that
did not come from a resume: the prefix is prepended exactly when
non-empty, the flag is set, and the result mirrors `sendPrompt`. -/
theorem finishRun_notInjected (env : OrchestratorEnv)
    (transcript agentName conversationId : String) (st : SessionStore)
    (acpSessionId : String) (rec : ACPSessionInfo)
    (hrec : st.sessions conversationId = some rec)
    (hci : rec.contextInjected = false) :
    finishRun env transcript agentName conversationId st acpSessionId false =
      { store := markContextInjected
          (setAcpToSpeakMcpSessionMapping st acpSessionId env.uiSessionId)
          conversationId
        success := (env.client.sendPrompt agentName acpSessionId
          (if env.contextPrefixText != "" then
            env.contextPrefixText ++ transcript else transcript)).success
        acpSessionId := some acpSessionId
        promptSent := some (if env.contextPrefixText != "" then
          env.contextPrefixText ++ transcript else transcript)
        sessionLoaded := false
        error := (env.client.sendPrompt agentName acpSessionId
          (if env.contextPrefixText != "" then
            env.contextPrefixText ++ transcript else transcript)).error } := by
  simp [finishRun, hasContextBeenInjected, setAcpToSpeakMcpSessionMapping,
    hrec, hci]

/-- After `markContextInjected` on a present record the flag reads true,
through the cross-reference update. -/
theorem hasContext_mark_uiMap (st : SessionStore)
    (conversationId acpSessionId ui : String) (rec : ACPSessionInfo)
    (hrec : st.sessions conversationId = some rec) :
    hasContextBeenInjected
      (markContextInjected
        (setAcpToSpeakMcpSessionMapping st acpSessionId ui) conversationId)
      conversationId = true := by
  simp [hasContextBeenInjected, markContextInjected,
    setAcpToSpeakMcpSessionMapping, hrec]

/-- The record after `markContextInjected` through the cross-reference
update. -/
theorem sessions_mark_uiMap (st : SessionStore)
    (conversationId acpSessionId ui : String) (rec : ACPSessionInfo)
    (hrec : st.sessions conversationId = some rec) :
    (markContextInjected
      (setAcpToSpeakMcpSessionMapping st acpSessionId ui) conversationId).sessions
        conversationId = some { rec with contextInjected := true } := by
  simp [markContextInjected, setAcpToSpeakMcpSessionMapping, hrec]

/-- Neither the context mark nor the cross-reference update touches the
verified set. -/
theorem verified_mark_uiMap (st : SessionStore)
    (conversationId acpSessionId ui : String) :
    (markContextInjected
      (setAcpToSpeakMcpSessionMapping st acpSessionId ui) conversationId).verified
      = st.verified := rfl

/-- The tail of a run after a successful resume (`sessionLoaded = true`):
the prompt carries no prefix, the flag ends true, the record keeps the
adopted session id and the verified set is untouched. -/
theorem finishRun_loaded (env : OrchestratorEnv)
    (transcript agentName conversationId : String) (st : SessionStore)
    (acpSessionId : String) (rec : ACPSessionInfo)
    (hrec : st.sessions conversationId = some rec) :
    (finishRun env transcript agentName conversationId st acpSessionId
        true).promptSent = some transcript ∧
    hasContextBeenInjected
      (finishRun env transcript agentName conversationId st acpSessionId
        true).store conversationId = true ∧
    (finishRun env transcript agentName conversationId st acpSessionId
        true).store.verified = st.verified ∧
    (finishRun env transcript agentName conversationId st acpSessionId
        true).store.sessions conversationId =
      some { rec with contextInjected := true } ∧
    (finishRun env transcript agentName conversationId st acpSessionId
        true).acpSessionId = some acpSessionId ∧
    (finishRun env transcript agentName conversationId st acpSessionId
        true).sessionLoaded = true := by
  by_cases hci : rec.contextInjected
  · have heta : { rec with contextInjected := true } = rec := by
      cases rec
      simp_all
    refine ⟨?_, ?_, ?_, ?_, ?_, ?_⟩ <;>
      simp [finishRun, hasContextBeenInjected, setAcpToSpeakMcpSessionMapping,
        hrec, hci, heta]
  · have hci' : rec.contextInjected = false := by simp_all
    refine ⟨?_, ?_, ?_, ?_, ?_, ?_⟩ <;>
      simp [finishRun, hasContextBeenInjected, setAcpToSpeakMcpSessionMapping,
        markContextInjected, hrec, hci']

/-- A verified record for the requested agent whose context flag is set:
the run reuses it and sends the raw transcript. -/
theorem run_reuse_raw (env : OrchestratorEnv)
    (transcript agentName conversationId : String) (st : SessionStore)
    (rec : ACPSessionInfo)
    (hv : st.verified conversationId = true)
    (hs : st.sessions conversationId = some rec)
    (hagent : rec.agentName = agentName)
    (hci : rec.contextInjected = true) :
    (processTranscriptWithACPAgent env transcript agentName conversationId
      false st).promptSent = some transcript := by
  have hres : resolveSession env agentName conversationId false st =
      (touchSession st conversationId env.now, some rec.sessionId, false) := by
    simp [resolveSession, getSessionForConversation, hv, hs, hagent]
  have htouch : hasContextBeenInjected (touchSession st conversationId env.now)
      conversationId = true := by
    simp [touchSession, hasContextBeenInjected, hs, hci]
  unfold processTranscriptWithACPAgent
  rw [hres]
  simp [finishRun, hasContextBeenInjected, setAcpToSpeakMcpSessionMapping]
  simp only [hasContextBeenInjected, setAcpToSpeakMcpSessionMapping] at htouch ⊢
  simp [htouch]

/-- C1: for a fresh conversation the context flag is false before the
first run and true after it, and a second run for the same conversation
without `forceNewSession` passes the raw transcript to `sendPrompt`, with
no context prefix prepended. -/
theorem c1_context_once (env1 env2 : OrchestratorEnv)
    (transcript1 transcript2 agentName conversationId sid : String)
    (st0 : SessionStore)
    (hv : st0.verified conversationId = false)
    (hs : st0.sessions conversationId = none)
    (hcreate : env1.client.getOrCreateSession agentName = some sid)
    (hsid : sid ≠ "") :
    hasContextBeenInjected st0 conversationId = false ∧
    hasContextBeenInjected
      (processTranscriptWithACPAgent env1 transcript1 agentName conversationId
        false st0).store conversationId = true ∧
    (processTranscriptWithACPAgent env2 transcript2 agentName conversationId
      false
      (processTranscriptWithACPAgent env1 transcript1 agentName conversationId
        false st0).store).promptSent = some transcript2 := by
  have hsid' : (sid == "") = false := by simp [hsid]
  have hres := resolveSession_fresh env1 agentName conversationId st0 hv hs
  have hrun1 : processTranscriptWithACPAgent env1 transcript1 agentName
      conversationId false st0 =
      finishRun env1 transcript1 agentName conversationId
        (setSessionForConversation st0 conversationId sid agentName
          (some (jsStringOr env1.profileCwd env1.processCwd)) env1.now)
        sid false := by
    unfold processTranscriptWithACPAgent
    rw [hres, hcreate]
    simp [hsid']
  have hst2 := sessions_setSession_fresh st0 conversationId sid agentName
    (some (jsStringOr env1.profileCwd env1.processCwd)) env1.now hs
  have hfin := finishRun_notInjected env1 transcript1 agentName conversationId
    _ sid _ hst2 rfl
  refine ⟨by simp [hasContextBeenInjected, hs], ?_, ?_⟩
  · rw [hrun1, hfin]
    exact hasContext_mark_uiMap _ conversationId sid env1.uiSessionId _ hst2
  · rw [hrun1, hfin]
    apply run_reuse_raw env2 transcript2 agentName conversationId _
      { sessionId := sid
        agentName := agentName
        createdAt := env1.now
        lastUsedAt := env1.now
        cwd := some (jsStringOr env1.profileCwd env1.processCwd)
        contextInjected := true }
    · show (markContextInjected (setAcpToSpeakMcpSessionMapping _ sid
        env1.uiSessionId) conversationId).verified conversationId = true
      rw [verified_mark_uiMap]
      exact verified_setSession st0 conversationId sid agentName _ env1.now
    · exact sessions_mark_uiMap _ conversationId sid env1.uiSessionId _ hst2
    · rfl
    · rfl

/-- Witness for C1 at a concrete client, store and agent. -/
theorem c1_witness :
    (loadStoreFromDisk fun _ => none).verified "conv" = false ∧
    (loadStoreFromDisk fun _ => none).sessions "conv" = none ∧
    (⟨⟨fun _ _ _ => ⟨false, none, some "e"⟩, fun _ => some "new-sid",
        fun _ _ _ => ⟨true, some "ok", none, none⟩⟩,
      "PFX", none, "/cwd", "ui", 100⟩ :
        OrchestratorEnv).client.getOrCreateSession "agentA" = some "new-sid" ∧
    "new-sid" ≠ "" ∧
    (hasContextBeenInjected (loadStoreFromDisk fun _ => none) "conv" = false ∧
      hasContextBeenInjected
        (processTranscriptWithACPAgent
          ⟨⟨fun _ _ _ => ⟨false, none, some "e"⟩, fun _ => some "new-sid",
            fun _ _ _ => ⟨true, some "ok", none, none⟩⟩, "PFX", none, "/cwd",
            "ui", 100⟩
          "t1" "agentA" "conv" false (loadStoreFromDisk fun _ => none)).store
        "conv" = true ∧
      (processTranscriptWithACPAgent
        ⟨⟨fun _ _ _ => ⟨false, none, some "e"⟩, fun _ => some "new-sid",
          fun _ _ _ => ⟨true, some "ok", none, none⟩⟩, "PFX2", none, "/cwd",
          "ui", 200⟩
        "t2" "agentA" "conv" false
        (processTranscriptWithACPAgent
          ⟨⟨fun _ _ _ => ⟨false, none, some "e"⟩, fun _ => some "new-sid",
            fun _ _ _ => ⟨true, some "ok", none, none⟩⟩, "PFX", none, "/cwd",
            "ui", 100⟩
          "t1" "agentA" "conv" false
          (loadStoreFromDisk fun _ => none)).store).promptSent =
        some "t2") :=
  ⟨rfl, rfl, rfl, by decide,
    c1_context_once
      ⟨⟨fun _ _ _ => ⟨false, none, some "e"⟩, fun _ => some "new-sid",
        fun _ _ _ => ⟨true, some "ok", none, none⟩⟩, "PFX", none, "/cwd",
        "ui", 100⟩
      ⟨⟨fun _ _ _ => ⟨false, none, some "e"⟩, fun _ => some "new-sid",
        fun _ _ _ => ⟨true, some "ok", none, none⟩⟩, "PFX2", none, "/cwd",
        "ui", 200⟩
      "t1" "t2" "agentA" "conv" "new-sid" (loadStoreFromDisk fun _ => none)
      rfl rfl rfl (by decide)⟩

/-- C9: after a first run whose constructed context prefix was the empty
string, the injected flag is nevertheless true — it is set
unconditionally on the first prompt — so any later run for the same
conversation sends the raw transcript, whatever non-empty prefix its
environment would construct. -/
theorem c9_flag_set_unconditionally (env1 : OrchestratorEnv)
    (transcript1 agentName conversationId sid : String) (st0 : SessionStore)
    (hv : st0.verified conversationId = false)
    (hs : st0.sessions conversationId = none)
    (hcreate : env1.client.getOrCreateSession agentName = some sid)
    (hsid : sid ≠ "")
    (hempty : env1.contextPrefixText = "") :
    (processTranscriptWithACPAgent env1 transcript1 agentName conversationId
      false st0).promptSent = some transcript1 ∧
    hasContextBeenInjected
      (processTranscriptWithACPAgent env1 transcript1 agentName conversationId
        false st0).store conversationId = true ∧
    (∀ env2 : OrchestratorEnv, ∀ transcript2 : String,
      (processTranscriptWithACPAgent env2 transcript2 agentName conversationId
        false
        (processTranscriptWithACPAgent env1 transcript1 agentName
          conversationId false st0).store).promptSent = some transcript2) := by
  have hsid' : (sid == "") = false := by simp [hsid]
  have hres := resolveSession_fresh env1 agentName conversationId st0 hv hs
  have hrun1 : processTranscriptWithACPAgent env1 transcript1 agentName
      conversationId false st0 =
      finishRun env1 transcript1 agentName conversationId
        (setSessionForConversation st0 conversationId sid agentName
          (some (jsStringOr env1.profileCwd env1.processCwd)) env1.now)
        sid false := by
    unfold processTranscriptWithACPAgent
    rw [hres, hcreate]
    simp [hsid']
  have hst2 := sessions_setSession_fresh st0 conversationId sid agentName
    (some (jsStringOr env1.profileCwd env1.processCwd)) env1.now hs
  have hfin := finishRun_notInjected env1 transcript1 agentName conversationId
    _ sid _ hst2 rfl
  refine ⟨?_, ?_, ?_⟩
  · rw [hrun1, hfin]
    simp [hempty]
  · rw [hrun1, hfin]
    exact hasContext_mark_uiMap _ conversationId sid env1.uiSessionId _ hst2
  · intro env2 transcript2
    rw [hrun1, hfin]
    apply run_reuse_raw env2 transcript2 agentName conversationId _
      { sessionId := sid
        agentName := agentName
        createdAt := env1.now
        lastUsedAt := env1.now
        cwd := some (jsStringOr env1.profileCwd env1.processCwd)
        contextInjected := true }
    · show (markContextInjected (setAcpToSpeakMcpSessionMapping _ sid
        env1.uiSessionId) conversationId).verified conversationId = true
      rw [verified_mark_uiMap]
      exact verified_setSession st0 conversationId sid agentName _ env1.now
    · exact sessions_mark_uiMap _ conversationId sid env1.uiSessionId _ hst2
    · rfl
    · rfl

/-- Witness for C9: an empty first prefix, then a run with the non-empty
prefix PFX2 still sends the raw transcript. -/
theorem c9_witness :
    (processTranscriptWithACPAgent
      ⟨⟨fun _ _ _ => ⟨false, none, some "e"⟩, fun _ => some "new-sid",
        fun _ _ _ => ⟨true, some "ok", none, none⟩⟩, "", none, "/cwd", "ui",
        100⟩
      "t1" "agentA" "conv" false (loadStoreFromDisk fun _ => none)).promptSent =
      some "t1" ∧
    (processTranscriptWithACPAgent
      ⟨⟨fun _ _ _ => ⟨false, none, some "e"⟩, fun _ => some "new-sid",
        fun _ _ _ => ⟨true, some "ok", none, none⟩⟩, "PFX2", none, "/cwd",
        "ui", 200⟩
      "t2" "agentA" "conv" false
      (processTranscriptWithACPAgent
        ⟨⟨fun _ _ _ => ⟨false, none, some "e"⟩, fun _ => some "new-sid",
          fun _ _ _ => ⟨true, some "ok", none, none⟩⟩, "", none, "/cwd", "ui",
          100⟩
        "t1" "agentA" "conv" false
        (loadStoreFromDisk fun _ => none)).store).promptSent = some "t2" :=
  ⟨(c9_flag_set_unconditionally
      ⟨⟨fun _ _ _ => ⟨false, none, some "e"⟩, fun _ => some "new-sid",
        fun _ _ _ => ⟨true, some "ok", none, none⟩⟩, "", none, "/cwd", "ui",
        100⟩
      "t1" "agentA" "conv" "new-sid" (loadStoreFromDisk fun _ => none)
      rfl rfl rfl (by decide) rfl).1,
    (c9_flag_set_unconditionally
      ⟨⟨fun _ _ _ => ⟨false, none, some "e"⟩, fun _ => some "new-sid",
        fun _ _ _ => ⟨true, some "ok", none, none⟩⟩, "", none, "/cwd", "ui",
        100⟩
      "t1" "agentA" "conv" "new-sid" (loadStoreFromDisk fun _ => none)
      rfl rfl rfl (by decide) rfl).2.2
      ⟨⟨fun _ _ _ => ⟨false, none, some "e"⟩, fun _ => some "new-sid",
        fun _ _ _ => ⟨true, some "ok", none, none⟩⟩, "PFX2", none, "/cwd",
        "ui", 200⟩
      "t2"⟩

/-- C3: when the persisted-but-unverified record for the target agent
fails to resume, the orchestrator clears the stale record, creates a new
session whose id the store reflects afterwards, and proceeds to send the
prompt — the result mirrors `sendPrompt`, so the load failure is never
surfaced as a failed orchestration result. -/
theorem c3_resume_fallback (env : OrchestratorEnv)
    (transcript agentName conversationId newSid : String) (st0 : SessionStore)
    (rec : ACPSessionInfo)
    (hv : st0.verified conversationId = false)
    (hs : st0.sessions conversationId = some rec)
    (hagent : rec.agentName = agentName)
    (hfail : (env.client.loadSession agentName rec.sessionId
      (jsStringOr rec.cwd (jsStringOr env.profileCwd env.processCwd))).success
        = false)
    (hcreate : env.client.getOrCreateSession agentName = some newSid)
    (hsid : newSid ≠ "")
    (hdiff : newSid ≠ rec.sessionId) :
    (processTranscriptWithACPAgent env transcript agentName conversationId
      false st0).acpSessionId = some newSid ∧
    getPersistedSessionInfo
      (processTranscriptWithACPAgent env transcript agentName conversationId
        false st0).store conversationId =
      some ⟨newSid, agentName, some (jsStringOr env.profileCwd env.processCwd)⟩ ∧
    (∀ p, getPersistedSessionInfo
        (processTranscriptWithACPAgent env transcript agentName conversationId
          false st0).store conversationId = some p →
      p.sessionId ≠ rec.sessionId) ∧
    (processTranscriptWithACPAgent env transcript agentName conversationId
      false st0).promptSent =
      some (if env.contextPrefixText != "" then
        env.contextPrefixText ++ transcript else transcript) ∧
    (processTranscriptWithACPAgent env transcript agentName conversationId
      false st0).success =
      (env.client.sendPrompt agentName newSid
        (if env.contextPrefixText != "" then
          env.contextPrefixText ++ transcript else transcript)).success ∧
    (processTranscriptWithACPAgent env transcript agentName conversationId
      false st0).error =
      (env.client.sendPrompt agentName newSid
        (if env.contextPrefixText != "" then
          env.contextPrefixText ++ transcript else transcript)).error := by
  have hsid' : (newSid == "") = false := by simp [hsid]
  have hres : resolveSession env agentName conversationId false st0 =
      (clearSessionForConversation st0 conversationId, none, false) := by
    rw [resolveSession_unverified env agentName conversationId st0 hv]
    exact tryLoadPersisted_fail env agentName conversationId st0 rec hs hagent
      hfail
  have hclear := sessions_clear st0 conversationId
  have hrun : processTranscriptWithACPAgent env transcript agentName
      conversationId false st0 =
      finishRun env transcript agentName conversationId
        (setSessionForConversation (clearSessionForConversation st0
          conversationId) conversationId newSid agentName
          (some (jsStringOr env.profileCwd env.processCwd)) env.now)
        newSid false := by
    unfold processTranscriptWithACPAgent
    rw [hres, hcreate]
    simp [hsid']
  have hst2 := sessions_setSession_fresh (clearSessionForConversation st0
    conversationId) conversationId newSid agentName
    (some (jsStringOr env.profileCwd env.processCwd)) env.now hclear
  have hfin := finishRun_notInjected env transcript agentName conversationId
    _ newSid _ hst2 rfl
  have hsessStore := sessions_mark_uiMap _ conversationId newSid
    env.uiSessionId _ hst2
  refine ⟨?_, ?_, ?_, ?_, ?_, ?_⟩
  · rw [hrun, hfin]
  · rw [hrun, hfin]
    show getPersistedSessionInfo _ conversationId = _
    rw [getPersistedSessionInfo, hsessStore]
    simp
  · intro p hp
    rw [hrun, hfin] at hp
    rw [getPersistedSessionInfo, hsessStore] at hp
    simp only [Option.map_some', Option.some_inj] at hp
    rw [← hp]
    simpa using hdiff
  · rw [hrun, hfin]
  · rw [hrun, hfin]
  · rw [hrun, hfin]

/-- Witness for C3: a persisted record whose resume fails; the run ends on
the fresh id new-sid and the store reflects it. -/
theorem c3_witness :
    (processTranscriptWithACPAgent
      ⟨⟨fun _ _ _ => ⟨false, none, some "e"⟩, fun _ => some "new-sid",
        fun _ _ _ => ⟨true, some "ok", none, none⟩⟩, "", none, "/cwd", "ui",
        100⟩
      "t" "agentA" "conv" false
      (loadStoreFromDisk fun c =>
        if c == "conv" then some ⟨"old-sid", "agentA", 1, 1, none, false⟩
        else none)).acpSessionId = some "new-sid" ∧
    getPersistedSessionInfo
      (processTranscriptWithACPAgent
        ⟨⟨fun _ _ _ => ⟨false, none, some "e"⟩, fun _ => some "new-sid",
          fun _ _ _ => ⟨true, some "ok", none, none⟩⟩, "", none, "/cwd", "ui",
          100⟩
        "t" "agentA" "conv" false
        (loadStoreFromDisk fun c =>
          if c == "conv" then some ⟨"old-sid", "agentA", 1, 1, none, false⟩
          else none)).store "conv" =
      some ⟨"new-sid", "agentA", some "/cwd"⟩ :=
  ⟨(c3_resume_fallback
      ⟨⟨fun _ _ _ => ⟨false, none, some "e"⟩, fun _ => some "new-sid",
        fun _ _ _ => ⟨true, some "ok", none, none⟩⟩, "", none, "/cwd", "ui",
        100⟩
      "t" "agentA" "conv" "new-sid"
      (loadStoreFromDisk fun c =>
        if c == "conv" then some ⟨"old-sid", "agentA", 1, 1, none, false⟩
        else none)
      ⟨"old-sid", "agentA", 1, 1, none, false⟩
      rfl rfl rfl rfl rfl (by decide) (by decide)).1,
    (c3_resume_fallback
      ⟨⟨fun _ _ _ => ⟨false, none, some "e"⟩, fun _ => some "new-sid",
        fun _ _ _ => ⟨true, some "ok", none, none⟩⟩, "", none, "/cwd", "ui",
        100⟩
      "t" "agentA" "conv" "new-sid"
      (loadStoreFromDisk fun c =>
        if c == "conv" then some ⟨"old-sid", "agentA", 1, 1, none, false⟩
        else none)
      ⟨"old-sid", "agentA", 1, 1, none, false⟩
      rfl rfl rfl rfl rfl (by decide) (by decide)).2.1⟩

/-- C4: a successful `loadSession` of the persisted record makes the
orchestrator adopt the returned id, upsert (and verify) the record, and
mark context as already injected, so the prompt sent right after the
resume is the raw transcript with no context prefix. -/
theorem c4_resume_adopts (env : OrchestratorEnv)
    (transcript agentName conversationId lsid : String) (st0 : SessionStore)
    (rec : ACPSessionInfo)
    (hv : st0.verified conversationId = false)
    (hs : st0.sessions conversationId = some rec)
    (hagent : rec.agentName = agentName)
    (hlsid : (env.client.loadSession agentName rec.sessionId
      (jsStringOr rec.cwd (jsStringOr env.profileCwd env.processCwd))).sessionId
        = some lsid)
    (hsuc : (env.client.loadSession agentName rec.sessionId
      (jsStringOr rec.cwd (jsStringOr env.profileCwd env.processCwd))).success
        = true)
    (hne : lsid ≠ "") :
    (processTranscriptWithACPAgent env transcript agentName conversationId
      false st0).acpSessionId = some lsid ∧
    (processTranscriptWithACPAgent env transcript agentName conversationId
      false st0).sessionLoaded = true ∧
    (∃ info, getSessionForConversation
        (processTranscriptWithACPAgent env transcript agentName conversationId
          false st0).store conversationId = some info ∧
      info.sessionId = lsid) ∧
    hasContextBeenInjected
      (processTranscriptWithACPAgent env transcript agentName conversationId
        false st0).store conversationId = true ∧
    (processTranscriptWithACPAgent env transcript agentName conversationId
      false st0).promptSent = some transcript := by
  have hres : resolveSession env agentName conversationId false st0 =
      (setSessionForConversation st0 conversationId lsid agentName
        (some (jsStringOr rec.cwd (jsStringOr env.profileCwd env.processCwd)))
        env.now,
       some lsid, true) := by
    rw [resolveSession_unverified env agentName conversationId st0 hv]
    exact tryLoadPersisted_success env agentName conversationId lsid st0 rec hs
      hagent hlsid hsuc hne
  have hrun : processTranscriptWithACPAgent env transcript agentName
      conversationId false st0 =
      finishRun env transcript agentName conversationId
        (setSessionForConversation st0 conversationId lsid agentName
          (some (jsStringOr rec.cwd
            (jsStringOr env.profileCwd env.processCwd))) env.now)
        lsid true := by
    unfold processTranscriptWithACPAgent
    rw [hres]
  have hst2 := sessions_setSession_existing st0 conversationId lsid agentName
    (some (jsStringOr rec.cwd (jsStringOr env.profileCwd env.processCwd)))
    env.now rec hs
  have hfin := finishRun_loaded env transcript agentName conversationId _ lsid
    _ hst2
  have hver : (finishRun env transcript agentName conversationId
      (setSessionForConversation st0 conversationId lsid agentName
        (some (jsStringOr rec.cwd (jsStringOr env.profileCwd env.processCwd)))
        env.now)
      lsid true).store.verified conversationId = true := by
    rw [hfin.2.2.1]
    exact verified_setSession st0 conversationId lsid agentName _ env.now
  refine ⟨?_, ?_, ?_, ?_, ?_⟩
  · rw [hrun]
    exact hfin.2.2.2.2.1
  · rw [hrun]
    exact hfin.2.2.2.2.2
  · rw [hrun]
    refine ⟨⟨lsid, agentName, rec.createdAt, env.now,
      some (jsStringOr rec.cwd (jsStringOr env.profileCwd env.processCwd)),
      true⟩, ?_, rfl⟩
    rw [getSessionForConversation, hver]
    simp only [if_true]
    exact hfin.2.2.2.1
  · rw [hrun]
    exact hfin.2.1
  · rw [hrun]
    exact hfin.1

/-- Witness for C4: a persisted record whose resume succeeds with the id
resumed; the prompt right after carries no prefix. -/
theorem c4_witness :
    (processTranscriptWithACPAgent
      ⟨⟨fun _ _ _ => ⟨true, some "resumed", none⟩, fun _ => some "new-sid",
        fun _ _ _ => ⟨true, some "ok", none, none⟩⟩, "PFX", none, "/cwd",
        "ui", 100⟩
      "t" "agentA" "conv" false
      (loadStoreFromDisk fun c =>
        if c == "conv" then some ⟨"old-sid", "agentA", 1, 1, none, false⟩
        else none)).promptSent = some "t" ∧
    hasContextBeenInjected
      (processTranscriptWithACPAgent
        ⟨⟨fun _ _ _ => ⟨true, some "resumed", none⟩, fun _ => some "new-sid",
          fun _ _ _ => ⟨true, some "ok", none, none⟩⟩, "PFX", none, "/cwd",
          "ui", 100⟩
        "t" "agentA" "conv" false
        (loadStoreFromDisk fun c =>
          if c == "conv" then some ⟨"old-sid", "agentA", 1, 1, none, false⟩
          else none)).store "conv" = true :=
  ⟨(c4_resume_adopts
      ⟨⟨fun _ _ _ => ⟨true, some "resumed", none⟩, fun _ => some "new-sid",
        fun _ _ _ => ⟨true, some "ok", none, none⟩⟩, "PFX", none, "/cwd",
        "ui", 100⟩
      "t" "agentA" "conv" "resumed"
      (loadStoreFromDisk fun c =>
        if c == "conv" then some ⟨"old-sid", "agentA", 1, 1, none, false⟩
        else none)
      ⟨"old-sid", "agentA", 1, 1, none, false⟩
      rfl rfl rfl rfl rfl (by decide)).2.2.2.2,
    (c4_resume_adopts
      ⟨⟨fun _ _ _ => ⟨true, some "resumed", none⟩, fun _ => some "new-sid",
        fun _ _ _ => ⟨true, some "ok", none, none⟩⟩, "PFX", none, "/cwd",
        "ui", 100⟩
      "t" "agentA" "conv" "resumed"
      (loadStoreFromDisk fun c =>
        if c == "conv" then some ⟨"old-sid", "agentA", 1, 1, none, false⟩
        else none)
      ⟨"old-sid", "agentA", 1, 1, none, false⟩
      rfl rfl rfl rfl rfl (by decide)).2.2.2.1⟩

end AcpRemote
